import Mathlib

/-!
Verification of the Commute-ai/ai-agents agent execution core.

The repository contains several overlapping historical snapshots of the same
small service.  This development embeds, faithfully to the Python source:

* the synchronous `BoundBaseAgent.execute` of `app/agents/base.py` (type
  check, model-config key validation, prompt construction, the single
  chat-completions call with a JSON-schema response format, and the
  response-content handling of lines 118-126);
* the free-text `InsightAgent._parse_insights_response` of
  `app/agents/insight_agent.py`;
* the weather-enriching `InsightAgent.execute` of
  `app/agents/insight/agent.py` together with `InsightRequest` and its
  `validate_itineraries` validator;
* `WeatherService.get_current_weather` of `app/services/weather.py`;
* `InsightService.generate_insights` of `app/services/insight.py`;
* the HTTP handler `generate_itineraries_with_insights` of
  `app/api/v1/endpoints/insight.py`;
* the async `BaseAgent` of the agent core (its `execute` and
  `_extract_json_from_response`), which is absent from the source tree —
  only its tests (`tests/agents/test_base.py`) and its callers
  (`app/agents/__init__.py`, `app/agents/insight/agent.py`) are present —
  and is therefore modelled from the specification, as marked on the
  individual definitions.

Python strings are embedded as `List Char`; JSON parsing
(`pydantic.model_validate_json`) is embedded by an executable JSON parser
plus per-model field validation.
-/

namespace Commute

/-- Python strings are embedded as lists of characters. -/
abbrev Str := List Char

/-- Convert a Lean string literal to the embedding of a Python string. -/
def strL (s : String) : Str := s.toList

/-- The whitespace characters removed by Python's `str.strip()`
(ASCII whitespace; exotic Unicode whitespace is not exercised here). -/
def isSpaceChar (c : Char) : Bool :=
  c = ' ' || c = '\t' || c = '\n' || c = '\r' || c = '\x0b' || c = '\x0c'

/-- `str.lstrip()`. -/
def trimLeft (s : Str) : Str := s.dropWhile isSpaceChar

/-- `str.rstrip()`. -/
def trimRight (s : Str) : Str := (s.reverse.dropWhile isSpaceChar).reverse

/-- Python's `str.strip()`. -/
def trim (s : Str) : Str := trimRight (trimLeft s)

/-- Python's `str.startswith(pat)`. -/
def isPrefixOfB : Str → Str → Bool
  | [], _ => true
  | _ :: _, [] => false
  | p :: ps, c :: cs => p == c && isPrefixOfB ps cs

/-- Python's `str.endswith(pat)`. -/
def endsWithB (pat s : Str) : Bool := isPrefixOfB pat.reverse s.reverse

/-- A string consisting only of whitespace. -/
def allSpace (s : Str) : Bool := s.all isSpaceChar

/-- Python's `str.split("\n")`: split at every newline, keeping empty parts. -/
def splitLines : Str → List Str
  | [] => [[]]
  | c :: rest =>
    match splitLines rest with
    | [] => [[]]
    | h :: t => if c = '\n' then [] :: h :: t else (c :: h) :: t

/-! ## JSON documents

An executable embedding of the JSON documents handled by `json.loads` /
`pydantic.model_validate_json`.  Numbers are kept as their raw lexemes: no
claim inspects a numeric value, only the shape of documents. -/

/-- A parsed JSON document. -/
inductive Json where
  | null
  | bool (b : Bool)
  | num (lexeme : Str)
  | str (s : Str)
  | arr (elems : List Json)
  | obj (fields : List (Str × Json))

/-- JSON inter-token whitespace. -/
def isJsonWs (c : Char) : Bool :=
  c = ' ' || c = '\t' || c = '\n' || c = '\r'

/-- Skip JSON whitespace. -/
def skipJsonWs (s : Str) : Str := s.dropWhile isJsonWs

/-- Value of a hexadecimal digit. -/
def hexVal (c : Char) : Option Nat :=
  let n := c.toNat
  if n ≥ 48 && n ≤ 57 then some (n - 48)
  else if n ≥ 97 && n ≤ 102 then some (n - 87)
  else if n ≥ 65 && n ≤ 70 then some (n - 55)
  else none

/-- The single-character string escapes of JSON. -/
def escMap (c : Char) : Option Char :=
  if c = '"' then some '"'
  else if c = '\\' then some '\\'
  else if c = '/' then some '/'
  else if c = 'b' then some '\x08'
  else if c = 'f' then some '\x0c'
  else if c = 'n' then some '\n'
  else if c = 'r' then some '\r'
  else if c = 't' then some '\t'
  else none

/-- Lex a JSON string literal (after the opening quote), returning the decoded
string and the rest of the input.  `\uXXXX` escapes are decoded without
surrogate pairing, which no claim exercises. -/
def lexString : Str → Except Str (Str × Str)
  | [] => .error (strL "unterminated string")
  | '"' :: rest => .ok ([], rest)
  | '\\' :: 'u' :: h1 :: h2 :: h3 :: h4 :: rest =>
    match hexVal h1, hexVal h2, hexVal h3, hexVal h4 with
    | some a, some b, some c, some d =>
      (match lexString rest with
       | .ok (s, r) => .ok (Char.ofNat (((a * 16 + b) * 16 + c) * 16 + d) :: s, r)
       | .error e => .error e)
    | _, _, _, _ => .error (strL "invalid unicode escape")
  | '\\' :: e :: rest =>
    (match escMap e with
     | some c =>
       (match lexString rest with
        | .ok (s, r) => .ok (c :: s, r)
        | .error err => .error err)
     | none => .error (strL "invalid escape"))
  | c :: rest =>
    (match lexString rest with
     | .ok (s, r) => .ok (c :: s, r)
     | .error e => .error e)

/-- Lex a JSON number, returning its raw lexeme and the rest of the input. -/
def lexNumber (s : Str) : Except Str (Str × Str) :=
  let (sign, s1) := match s with
    | '-' :: r => (['-'], r)
    | _ => (([] : Str), s)
  let ip := s1.takeWhile Char.isDigit
  let s2 := s1.dropWhile Char.isDigit
  if ip.isEmpty then .error (strL "invalid number")
  else
    let (fp, s3) := match s2 with
      | '.' :: r =>
        let d := r.takeWhile Char.isDigit
        ('.' :: d, r.dropWhile Char.isDigit)
      | _ => (([] : Str), s2)
    if fp = ['.'] then .error (strL "invalid number")
    else
      match s3 with
      | c :: r =>
        if c = 'e' || c = 'E' then
          let (es, r1) := match r with
            | '+' :: r2 => (['+'], r2)
            | '-' :: r2 => (['-'], r2)
            | _ => (([] : Str), r)
          let ed := r1.takeWhile Char.isDigit
          if ed.isEmpty then .error (strL "invalid number")
          else .ok (sign ++ ip ++ fp ++ c :: es ++ ed, r1.dropWhile Char.isDigit)
        else .ok (sign ++ ip ++ fp, s3)
      | [] => .ok (sign ++ ip ++ fp, s3)

mutual

/-- Recursive-descent JSON value parser (the fuel bounds nesting depth and is
always supplied as more than the input length). -/
def parseValue : Nat → Str → Except Str (Json × Str)
  | 0, _ => .error (strL "recursion limit")
  | fuel + 1, s =>
    match skipJsonWs s with
    | '{' :: rest =>
      (match skipJsonWs rest with
       | '}' :: r2 => .ok (.obj [], r2)
       | r1 =>
         match parseMembers fuel r1 [] with
         | .ok (fs, r2) => .ok (.obj fs, r2)
         | .error e => .error e)
    | '[' :: rest =>
      (match skipJsonWs rest with
       | ']' :: r2 => .ok (.arr [], r2)
       | r1 =>
         match parseElements fuel r1 [] with
         | .ok (es, r2) => .ok (.arr es, r2)
         | .error e => .error e)
    | '"' :: rest =>
      (match lexString rest with
       | .ok (str, r) => .ok (.str str, r)
       | .error e => .error e)
    | 't' :: 'r' :: 'u' :: 'e' :: rest => .ok (.bool true, rest)
    | 'f' :: 'a' :: 'l' :: 's' :: 'e' :: rest => .ok (.bool false, rest)
    | 'n' :: 'u' :: 'l' :: 'l' :: rest => .ok (.null, rest)
    | c :: rest =>
      if c = '-' || c.isDigit then
        (match lexNumber (c :: rest) with
         | .ok (lx, r) => .ok (.num lx, r)
         | .error e => .error e)
      else .error (strL "unexpected character")
    | [] => .error (strL "expecting value")

/-- Parse the members of a JSON object after the opening brace. -/
def parseMembers : Nat → Str → List (Str × Json) → Except Str (List (Str × Json) × Str)
  | 0, _, _ => .error (strL "recursion limit")
  | fuel + 1, s, acc =>
    match skipJsonWs s with
    | '"' :: rest =>
      (match lexString rest with
       | .error e => .error e
       | .ok (key, r1) =>
         match skipJsonWs r1 with
         | ':' :: r2 =>
           (match parseValue fuel r2 with
            | .error e => .error e
            | .ok (v, r3) =>
              match skipJsonWs r3 with
              | ',' :: r4 => parseMembers fuel r4 (acc ++ [(key, v)])
              | '}' :: r4 => .ok (acc ++ [(key, v)], r4)
              | _ => .error (strL "expected delimiter in object"))
         | _ => .error (strL "expected colon"))
    | _ => .error (strL "expected property name")

/-- Parse the elements of a JSON array after the opening bracket. -/
def parseElements : Nat → Str → List Json → Except Str (List Json × Str)
  | 0, _, _ => .error (strL "recursion limit")
  | fuel + 1, s, acc =>
    match parseValue fuel s with
    | .error e => .error e
    | .ok (v, r1) =>
      match skipJsonWs r1 with
      | ',' :: r2 => parseElements fuel r2 (acc ++ [v])
      | ']' :: r2 => .ok (acc ++ [v], r2)
      | _ => .error (strL "expected delimiter in array")

end

/-- `json.loads`: parse a complete JSON document, rejecting trailing data.
The empty (or all-whitespace) string is not a valid JSON document. -/
def parseJsonStr (s : Str) : Except Str Json :=
  match parseValue (s.length + 1) s with
  | .error e => .error e
  | .ok (v, rest) =>
    match skipJsonWs rest with
    | [] => .ok v
    | _ => .error (strL "extra data")

/-- Python dict lookup semantics for JSON objects: with duplicate keys the
last occurrence wins, as in `json.loads`. -/
def jlookup (k : Str) (fields : List (Str × Json)) : Option Json :=
  fields.foldl (fun acc p => if p.1 == k then some p.2 else acc) none

/-! ## Data model (`app/schemas/...`)

Timestamps are embedded as `Nat`; `float` fields as exact rationals (no claim
performs floating-point arithmetic on them). -/

/-- `app/schemas/geo.py` — Coordinates.
Modelled from the spec: the file `app/schemas/geo.py` is absent from the
source tree (only its importers are present); the spec gives
`{latitude: float, longitude: float}` with latitude in [-90,90] and
longitude in [-180,180]. -/
structure Coordinates where
  latitude : Rat
  longitude : Rat

/-- `app/schemas/location.py` — Place. -/
structure Place where
  coordinates : Coordinates
  name : Option Str

/-- `app/schemas/itinerary.py` — TransportMode. -/
inductive TransportMode where
  | WALK | BICYCLE | CAR | TRAM | SUBWAY | RAIL | BUS | FERRY

/-- `app/schemas/itinerary.py` — Route. -/
structure Route where
  short_name : Str
  long_name : Str
  description : Option Str

/-- `app/schemas/itinerary.py` — Leg. -/
structure Leg where
  mode : TransportMode
  start : Nat
  «end» : Nat
  duration : Int
  distance : Rat
  from_place : Place
  to_place : Place
  route : Option Route

/-- `app/schemas/itinerary.py` — Itinerary. -/
structure Itinerary where
  start : Nat
  «end» : Nat
  duration : Int
  walk_distance : Rat
  walk_time : Int
  legs : List Leg

/-- `app/schemas/preference.py` — Preference (`{prompt: str}`). -/
structure Preference where
  prompt : Str

/-- `app/schemas/weather.py` — WeatherCondition.  The numeric fields keep the
raw JSON number lexemes delivered by the upstream weather API; no claim
inspects their values. -/
structure WeatherCondition where
  temperature : Str
  description : Str
  humidity : Str
  wind_speed : Str
  precipitation : Str
  timestamp : Nat

/-- `app/schemas/itinerary.py` — LegInsight. -/
structure LegInsight where
  ai_insight : Str

/-- `app/schemas/itinerary.py` — ItineraryInsight. -/
structure ItineraryInsight where
  ai_insight : Str
  leg_insights : List LegInsight

/-- `app/agents/insight/agent.py` — InsightResponse. -/
structure InsightResponse where
  itinerary_insights : List ItineraryInsight

/-- `app/agents/insight/agent.py` — InsightRequest. -/
structure InsightRequest where
  itineraries : List Itinerary
  user_preferences : Option (List Preference)
  weather_conditions : Option WeatherCondition

/-! ## Python exception kinds

One inductive covers the exception classes raised across the embedded code.
`pydanticValidation` embeds `pydantic.ValidationError`, which subclasses
`ValueError` — hence `isValueError` is true for it. -/

/-- The Python exceptions raised by the embedded code. -/
inductive PyExc where
  | valueError (msg : Str)
  | pydanticValidation (msg : Str)
  | agentValidationError (msg : Str)
  | agentProcessingError (msg : Str)
  | llmError (msg : Str)
  | llmConnectionError (msg : Str)
  | llmRateLimitError (msg : Str)
  | llmValidationError (msg : Str)
  | weatherUnavailable (msg : Str)
  | keyError (msg : Str)
  | indexError
  | typeError (msg : Str)
  | attributeError (msg : Str)
  | timeoutError
  | clientError

/-- `isinstance(e, ValueError)` — true for `ValueError` and for
`pydantic.ValidationError`, which subclasses it. -/
def PyExc.isValueError : PyExc → Bool
  | .valueError _ => true
  | .pydanticValidation _ => true
  | _ => false

/-- `isinstance(e, LLMError)` — true for `LLMError` and its subclasses
(`app/services/llm/base.py`). -/
def PyExc.isLLMError : PyExc → Bool
  | .llmError _ => true
  | .llmConnectionError _ => true
  | .llmRateLimitError _ => true
  | .llmValidationError _ => true
  | _ => false

/-- `isinstance(e, WeatherServiceError)` — `WeatherServiceUnavailableError`
subclasses it (`app/services/weather.py`). -/
def PyExc.isWeatherServiceError : PyExc → Bool
  | .weatherUnavailable _ => true
  | _ => false

/-- `app/agents/insight/agent.py` lines 27-32 — pydantic construction of
`InsightRequest` running the `validate_itineraries` field validator: the
`ValueError` it raises is wrapped into a `pydantic.ValidationError`. -/
def InsightRequest.mk? (itins : List Itinerary) (prefs : Option (List Preference))
    (w : Option WeatherCondition) : Except PyExc InsightRequest :=
  match itins with
  | [] => .error (.pydanticValidation (strL "At least one itinerary is required"))
  | _ => .ok ⟨itins, prefs, w⟩

/-! ## pydantic `model_validate_json` for the insight output model -/

/-- Field validation of a `LegInsight` from parsed JSON: `ai_insight` must be
present and a string (extra fields are ignored, as pydantic does by default). -/
def validateLegInsight : Json → Except Str LegInsight
  | .obj fs =>
    (match jlookup (strL "ai_insight") fs with
     | some (.str s) => .ok ⟨s⟩
     | some _ => .error (strL "ai_insight: string expected")
     | none => .error (strL "ai_insight: field required"))
  | _ => .error (strL "LegInsight: object expected")

/-- Field validation of an `ItineraryInsight` from parsed JSON. -/
def validateItineraryInsight : Json → Except Str ItineraryInsight
  | .obj fs =>
    (match jlookup (strL "ai_insight") fs with
     | some (.str s) =>
       (match jlookup (strL "leg_insights") fs with
        | some (.arr items) =>
          (match items.mapM validateLegInsight with
           | .ok legs => .ok ⟨s, legs⟩
           | .error e => .error e)
        | some _ => .error (strL "leg_insights: list expected")
        | none => .error (strL "leg_insights: field required"))
     | some _ => .error (strL "ai_insight: string expected")
     | none => .error (strL "ai_insight: field required"))
  | _ => .error (strL "ItineraryInsight: object expected")

/-- Field validation of an `InsightResponse` from parsed JSON. -/
def validateInsightResponse : Json → Except Str InsightResponse
  | .obj fs =>
    (match jlookup (strL "itinerary_insights") fs with
     | some (.arr items) =>
       (match items.mapM validateItineraryInsight with
        | .ok insights => .ok ⟨insights⟩
        | .error e => .error e)
     | some _ => .error (strL "itinerary_insights: list expected")
     | none => .error (strL "itinerary_insights: field required"))
  | _ => .error (strL "InsightResponse: object expected")

/-- `OutModel.model_validate_json(s)`: parse the string as JSON, then
validate the fields against the output model. -/
def modelValidateJson (validate : Json → Except Str Out) (s : Str) : Except Str Out :=
  match parseJsonStr s with
  | .error e => .error e
  | .ok j => validate j

/-- `InsightResponse.model_validate_json`. -/
def modelValidateInsight : Str → Except Str InsightResponse :=
  modelValidateJson validateInsightResponse

/-! ## `app/agents/base.py` — the synchronous `BoundBaseAgent.execute`

The chat-completions client is embedded as a function from the request value
actually sent (messages plus response format) to the assistant message
content (`None` embeds an absent/None `content` attribute).  Template files
and the parsed `config.json` are inputs: loading them is I/O outside the
decided claims, but the key validation of the parsed config (lines 70-91) is
embedded.  Jinja template rendering is embedded as a function from the input
model (whose `model_dump` supplies the variables) to the rendered text. -/

/-- A `{role, content}` chat message. -/
structure ChatMessage where
  role : Str
  content : Str

/-- The `response_format` dict of lines 106-115: a JSON-schema constraint
named after the output type. -/
structure RespFormat where
  type : Str
  name : Str
  schema : Json

/-- One `chat.completions.create` request: the messages and response format
passed to the provider. -/
structure GenCall where
  messages : List ChatMessage
  response_format : RespFormat

/-- What `BoundBaseAgent.execute` derives from the bound output type `out_t`:
its class name (`out_t.__name__`), its mechanically derived JSON schema
(`out_t.model_json_schema()`), and its pydantic field validation. -/
structure OutputMeta (Out : Type) where
  name : Str
  schema : Json
  validate : Json → Except Str Out

/-- The errors `BoundBaseAgent.execute` raises. -/
inductive BoundErr where
  /-- `TypeError` from the `isinstance` check (lines 37-42). -/
  | typeError (msg : Str)
  /-- `ValueError` from the model-config key checks (lines 79-89). -/
  | configValueError (msg : Str)
  /-- `ValueError("Empty assistant content; cannot validate as JSON.")`
  (lines 120-121). -/
  | emptyContent
  /-- `pydantic.ValidationError` from `model_validate_json` (line 126). -/
  | pydanticValidation (msg : Str)

/-- The ProcessingError kind of the spec's error taxonomy (§7): the provider
responded but the payload could not be extracted/parsed/validated into the
output schema.  Of `BoundBaseAgent.execute`'s errors, the empty-content
`ValueError` and the parse/validation failure are of this kind. -/
def BoundErr.isProcessingKind : BoundErr → Bool
  | .emptyContent => true
  | .pydanticValidation _ => true
  | _ => false

/-- `REQUIRED_CONFIG_KEYS`/`ALLOWED_CONFIG_KEYS` validation of the parsed
`config.json` keys (lines 70-91). -/
def validConfig (keys : List Str) : Bool :=
  keys.contains (strL "model") &&
    keys.all (fun k =>
      [strL "model", strL "temperature", strL "max_completion_tokens",
       strL "top_p", strL "reasoning_effort"].contains k)

/-- The single `chat.completions.create` request value built on lines
96-116: the system message then the user message, plus the JSON-schema
response format named after the output type. -/
def mkGenCall (sysT userT : In → Str) (meta : OutputMeta Out) (a : In) : GenCall :=
  { messages := [⟨strL "system", sysT a⟩, ⟨strL "user", userT a⟩],
    response_format :=
      { type := strL "json_schema", name := meta.name, schema := meta.schema } }

/-- Lines 118-126 of `BoundBaseAgent.execute`: the handling of the assistant
message content.  `none` embeds `content` being `None`; the branch joining a
list of content parts (lines 122-123) is not embedded (providers deliver
plain text in every decided claim). -/
def handleContent (validate : Json → Except Str Out) (content : Option Str) :
    Except BoundErr Out :=
  match content with
  | none => .error .emptyContent
  | some s =>
    if s.isEmpty then .error .emptyContent
    else
      match modelValidateJson validate (trim s) with
      | .error e => .error (.pydanticValidation e)
      | .ok v => .ok v

/-- `BoundBaseAgent.execute` (`app/agents/base.py` lines 36-126): isinstance
check, config-key validation, prompt rendering, the provider call, and the
response handling.  The first component of the result lists the provider
requests actually issued (the source issues exactly one, after validation). -/
def boundExecute (configKeys : List Str) (sysT userT : In → Str)
    (meta : OutputMeta Out) (provider : GenCall → Option Str)
    (arg : Except Str In) : List GenCall × Except BoundErr Out :=
  match arg with
  | .error t => ([], .error (.typeError (strL "Expected argument of type " ++ t)))
  | .ok a =>
    if validConfig configKeys then
      let call := mkGenCall sysT userT meta a
      ([call], handleContent meta.validate (provider call))
    else
      ([], .error (.configValueError (strL "model configuration keys")))

/-- `InsightResponse.model_json_schema()`: the JSON schema pydantic derives
mechanically from the output model (transcribed shape). -/
def insightResponseJsonSchema : Json :=
  .obj
    [(strL "$defs", .obj
        [(strL "LegInsight", .obj
            [(strL "properties", .obj
                [(strL "ai_insight", .obj
                    [(strL "title", .str (strL "Ai Insight")),
                     (strL "type", .str (strL "string"))])]),
             (strL "required", .arr [.str (strL "ai_insight")]),
             (strL "title", .str (strL "LegInsight")),
             (strL "type", .str (strL "object"))]),
         (strL "ItineraryInsight", .obj
            [(strL "properties", .obj
                [(strL "ai_insight", .obj
                    [(strL "title", .str (strL "Ai Insight")),
                     (strL "type", .str (strL "string"))]),
                 (strL "leg_insights", .obj
                    [(strL "items", .obj
                        [(strL "$ref", .str (strL "#/$defs/LegInsight"))]),
                     (strL "title", .str (strL "Leg Insights")),
                     (strL "type", .str (strL "array"))])]),
             (strL "required", .arr
                [.str (strL "ai_insight"), .str (strL "leg_insights")]),
             (strL "title", .str (strL "ItineraryInsight")),
             (strL "type", .str (strL "object"))])]),
     (strL "properties", .obj
        [(strL "itinerary_insights", .obj
            [(strL "items", .obj
                [(strL "$ref", .str (strL "#/$defs/ItineraryInsight"))]),
             (strL "title", .str (strL "Itinerary Insights")),
             (strL "type", .str (strL "array"))])]),
     (strL "required", .arr [.str (strL "itinerary_insights")]),
     (strL "title", .str (strL "InsightResponse")),
     (strL "type", .str (strL "object"))]

/-- The output binding for `out_t = InsightResponse`: `out_t.__name__`,
`out_t.model_json_schema()` and its pydantic validation. -/
def insightResponseMeta : OutputMeta InsightResponse :=
  { name := strL "InsightResponse",
    schema := insightResponseJsonSchema,
    validate := validateInsightResponse }

/-! ## The async agent core (modelled from the spec)

The async `BaseAgent` — the variant with `_load_template`,
`_extract_json_from_response` and the `AgentError` hierarchy — is absent
from the source tree: only its tests (`tests/agents/test_base.py`) and its
callers (`app/agents/__init__.py`, `app/agents/insight/agent.py`) are
present.  Its behaviour is modelled from spec §4.2. -/

/-- Modelled from the spec: `BaseAgent._extract_json_from_response` of the
async agent core, absent from the source tree.  Spec §4.2 step 5: the
returned text may be raw JSON, fenced inside triple backticks with or
without a `json` language tag, or surrounded by incidental whitespace; the
extraction strips fences and whitespace to recover a minimal JSON document
string (behaviour pinned by `tests/agents/test_base.py`). -/
def extractJsonFromResponse (response : Str) : Str :=
  if isPrefixOfB (strL "```json") (trim response) then
    trim (dropTicksEnd ((trim response).drop 7))
  else if isPrefixOfB (strL "```") (trim response) then
    trim (dropTicksEnd ((trim response).drop 3))
  else trim response
where
  /-- Remove a trailing triple-backtick fence if present. -/
  dropTicksEnd (s : Str) : Str :=
    if endsWithB (strL "```") s then (s.reverse.drop 3).reverse else s

/-- Modelled from the spec: `BaseAgent.execute` of the async agent core
(spec §4.2 steps 1 and 3-7), absent from the source tree.  Type-check the
input (`AgentValidationError` on a non-instance), render the system and user
prompts, call the generation provider with the two role-tagged messages
(provider failures propagate), extract the JSON document from the response,
fail with `AgentProcessingError` on empty content, then parse/validate
against the output model, wrapping failures in `AgentProcessingError`.
The first component of the result lists the provider calls issued. -/
def asyncExecute (sysT userT : In → Str) (validate : Json → Except Str Out)
    (provider : List ChatMessage → Except PyExc Str) (arg : Except Str In) :
    List (List ChatMessage) × Except PyExc Out :=
  match arg with
  | .error t => ([], .error (.agentValidationError (strL "Invalid input type: " ++ t)))
  | .ok a =>
    let msgs := [⟨strL "system", sysT a⟩, ⟨strL "user", userT a⟩]
    match provider msgs with
    | .error e => ([msgs], .error e)
    | .ok text =>
      match extractJsonFromResponse text with
      | [] => ([msgs], .error (.agentProcessingError (strL "empty assistant content")))
      | extracted =>
        match modelValidateJson validate extracted with
        | .error e => ([msgs], .error (.agentProcessingError e))
        | .ok v => ([msgs], .ok v)

/-! ## `app/services/weather.py` — WeatherService.get_current_weather

The aiohttp round trip is embedded as an upstream outcome: a timeout, a
client error, or a response with a status and a JSON body.  (A 200 body that
fails JSON decoding raises `json.JSONDecodeError` in the source; that path
is folded into `clientError` here and is not exercised by any claim.) -/

/-- The outcome of the aiohttp GET to the weather API. -/
inductive Upstream where
  | timeout
  | clientErr
  | response (status : Nat) (body : Json)

/-- Python `data[k]` on a JSON-decoded value: `KeyError` on a missing key of
a dict, `TypeError` when the value is not a dict. -/
def Json.item (j : Json) (k : Str) : Except PyExc Json :=
  match j with
  | .obj fs =>
    (match jlookup k fs with
     | some v => .ok v
     | none => .error (.keyError k))
  | _ => .error (.typeError (strL "value is not subscriptable by string"))

/-- Python `data[i]` on a JSON-decoded value: `IndexError` past the end of a
list, `TypeError` when the value is not a list. -/
def Json.index (j : Json) (i : Nat) : Except PyExc Json :=
  match j with
  | .arr es =>
    (match es.get? i with
     | some v => .ok v
     | none => .error .indexError)
  | _ => .error (.typeError (strL "value is not subscriptable by index"))

/-- Python `data.get(k, default)` on a JSON-decoded value: `AttributeError`
when the value is not a dict. -/
def Json.getDefault (j : Json) (k : Str) (d : Json) : Except PyExc Json :=
  match j with
  | .obj fs => .ok ((jlookup k fs).getD d)
  | _ => .error (.attributeError (strL "value has no attribute get"))

/-- pydantic construction of `WeatherCondition` (lines 51-58): numeric JSON
values for the numeric fields, a string for `description`; anything else
raises `pydantic.ValidationError`.  (pydantic's lax string-to-number
coercions are not exercised by any claim and are not modelled.) -/
def mkWeatherCondition (temp desc hum wind precip : Json) (now : Nat) :
    Except PyExc WeatherCondition :=
  match temp, desc, hum, wind, precip with
  | .num t, .str d, .num h, .num w, .num p => .ok ⟨t, d, h, w, p, now⟩
  | _, _, _, _, _ =>
    .error (.pydanticValidation (strL "WeatherCondition: invalid field value"))

/-- The body of the `try` block of `get_current_weather` (lines 43-58),
evaluating the keyword arguments of `WeatherCondition(...)` left to right as
Python does. -/
def weatherTryBody (up : Upstream) (now : Nat) : Except PyExc WeatherCondition :=
  match up with
  | .timeout => .error .timeoutError
  | .clientErr => .error .clientError
  | .response status body =>
    if status ≠ 200 then
      .error (.weatherUnavailable (strL "non-200 status"))
    else
      match body.item (strL "main") with
      | .error e => .error e
      | .ok main =>
        match main.item (strL "temp") with
        | .error e => .error e
        | .ok temp =>
          match body.item (strL "weather") with
          | .error e => .error e
          | .ok weatherArr =>
            match weatherArr.index 0 with
            | .error e => .error e
            | .ok w0 =>
              match w0.item (strL "description") with
              | .error e => .error e
              | .ok desc =>
                match main.item (strL "humidity") with
                | .error e => .error e
                | .ok hum =>
                  match body.item (strL "wind") with
                  | .error e => .error e
                  | .ok wind =>
                    match wind.getDefault (strL "speed") (.num (strL "0.0")) with
                    | .error e => .error e
                    | .ok speed =>
                      match body.getDefault (strL "rain") (.obj []) with
                      | .error e => .error e
                      | .ok rain =>
                        match rain.getDefault (strL "1h") (.num (strL "0.0")) with
                        | .error e => .error e
                        | .ok precip =>
                          mkWeatherCondition temp desc hum speed precip now

/-- `WeatherService.get_current_weather` (lines 30-60): the missing-API-key
`ValueError`, the `try` body, and the `except (TimeoutError,
aiohttp.ClientError, KeyError)` clause that converts exactly those three
exception classes into `WeatherServiceUnavailableError("Failed to fetch
weather data")` — every other exception escapes unchanged. -/
def getCurrentWeather (apiKey : Str) (up : Upstream) (now : Nat) :
    Except PyExc WeatherCondition :=
  if apiKey.isEmpty then .error (.valueError (strL "Missing OpenWeatherMap API key"))
  else
    match weatherTryBody up now with
    | .ok w => .ok w
    | .error e =>
      match e with
      | .timeoutError => .error (.weatherUnavailable (strL "Failed to fetch weather data"))
      | .clientError => .error (.weatherUnavailable (strL "Failed to fetch weather data"))
      | .keyError _ => .error (.weatherUnavailable (strL "Failed to fetch weather data"))
      | other => .error other

/-! ## `app/agents/insight/agent.py` — the weather-enriching InsightAgent -/

/-- The weather collaborator as consumed by the agent: coordinates to either
a `WeatherCondition` or a raised exception. -/
abbrev WeatherFetch := Coordinates → Except PyExc WeatherCondition

/-- The hardcoded fallback `Coordinates(latitude=60.1695, longitude=24.9354)`
(line 63, "Default to Helsinki coordinates"). -/
def helsinkiCoordinates : Coordinates := ⟨60.1695, 24.9354⟩

/-- `InsightAgent._get_weather_for_itinerary` (lines 52-68): with no weather
service return `None`; otherwise take the first leg's origin coordinates
(`from_place` is a required, hence truthy, field) or the Helsinki default,
fetch, and catch exactly `(ValueError, WeatherServiceError)`, turning them
into `None`; any other exception escapes. -/
def getWeatherForItinerary (svc : Option WeatherFetch) (it : Itinerary) :
    Except PyExc (Option WeatherCondition) :=
  match svc with
  | none => .ok none
  | some fetch =>
    let coordinates := match it.legs with
      | leg :: _ => leg.from_place.coordinates
      | [] => helsinkiCoordinates
    match fetch coordinates with
    | .ok w => .ok (some w)
    | .error e =>
      if e.isValueError || e.isWeatherServiceError then .ok none
      else .error e

/-- The enriched copy built on lines 79-83: a fresh `InsightRequest` carrying
the input's itineraries and preferences plus the fetched weather.  (Its
`validate_itineraries` validator re-runs and passes: the branch is only
taken with a non-empty itinerary list.) -/
def enhancedRequestOk (w : Option WeatherCondition) (req : InsightRequest) :
    InsightRequest :=
  { itineraries := req.itineraries,
    user_preferences := req.user_preferences,
    weather_conditions := w }

/-- `InsightAgent.execute` (lines 70-87): when `weather_conditions` is unset
and at least one itinerary is present, fetch weather for the first itinerary
and hand the enriched copy to `super().execute`; otherwise hand the request
through unchanged. -/
def insightExecute (svc : Option WeatherFetch) (sysT userT : InsightRequest → Str)
    (provider : List ChatMessage → Except PyExc Str) (req : InsightRequest) :
    List (List ChatMessage) × Except PyExc InsightResponse :=
  match req.weather_conditions, req.itineraries with
  | none, firstItinerary :: _ =>
    (match getWeatherForItinerary svc firstItinerary with
     | .error e => ([], .error e)
     | .ok w =>
       asyncExecute sysT userT validateInsightResponse provider
         (.ok (enhancedRequestOk w req)))
  | _, _ => asyncExecute sysT userT validateInsightResponse provider (.ok req)

/-- `InsightAgent.execute` with the caller's request object threaded through
explicitly: the source constructs a fresh `InsightRequest` for enrichment and
assigns no attribute of `input_data`, so the caller's object is returned
unchanged alongside the result. -/
def insightExecuteSt (svc : Option WeatherFetch) (sysT userT : InsightRequest → Str)
    (provider : List ChatMessage → Except PyExc Str) (req : InsightRequest) :
    (List (List ChatMessage) × Except PyExc InsightResponse) × InsightRequest :=
  (insightExecute svc sysT userT provider req, req)

/-! ## `app/services/insight.py` — InsightService.generate_insights -/

/-- `InsightService.generate_insights` (lines 50-78): reject an empty
itinerary list before anything else, fetch weather for the first itinerary
(the service's own `_get_weather_for_itinerary`, lines 32-48, identical to
the agent's), build the `InsightRequest`, and run the agent.  The service
constructs its `InsightAgent` without a weather service (line 30), so the
agent's own enrichment fetch yields `None` when it runs.  The first
component lists the generation-provider calls issued. -/
def generateInsights (svc : Option WeatherFetch)
    (sysT userT : InsightRequest → Str)
    (provider : List ChatMessage → Except PyExc Str)
    (itineraries : List Itinerary) (prefs : Option (List Preference)) :
    List (List ChatMessage) × Except PyExc (List ItineraryInsight) :=
  match itineraries with
  | [] => ([], .error (.valueError (strL "At least one itinerary is required")))
  | firstItinerary :: _ =>
    match getWeatherForItinerary svc firstItinerary with
    | .error e => ([], .error e)
    | .ok weather =>
      match InsightRequest.mk? itineraries prefs weather with
      | .error e => ([], .error e)
      | .ok req =>
        match insightExecute none sysT userT provider req with
        | (calls, .ok resp) => (calls, .ok resp.itinerary_insights)
        | (calls, .error e) => (calls, .error e)

/-! ## `app/api/v1/endpoints/insight.py` — the HTTP handler -/

/-- The status code and detail prefix chosen by the `except` clauses of
`generate_itineraries_with_insights` (lines 46-53): `LLMError` to 503,
`ValueError` (which includes `pydantic.ValidationError`) to 500
"Configuration error", everything else to 500 "Internal server error". -/
def httpReplyOf (e : PyExc) : Nat × Str :=
  if e.isLLMError then (503, strL "AI service temporarily unavailable")
  else if e.isValueError then (500, strL "Configuration error")
  else (500, strL "Internal server error")

/-- `generate_itineraries_with_insights` (lines 24-53) on a body that parsed
into `ItinerariesRequest`: construct the `InsightRequest` (no weather), run
the agent, answer 200 on success, otherwise map the exception through the
`except` clauses.  (A body that fails `ItinerariesRequest` parsing is
answered 422 by FastAPI before this handler runs.) -/
def insightEndpoint (itineraries : List Itinerary) (prefs : Option (List Preference))
    (agent : InsightRequest → Except PyExc InsightResponse) : Nat × Str :=
  match InsightRequest.mk? itineraries prefs none with
  | .error e => httpReplyOf e
  | .ok req =>
    match agent req with
    | .ok _ => (200, strL "")
    | .error e => httpReplyOf e

/-! ## `app/agents/insight_agent.py` — the free-text variant's parsing -/

/-- The accumulation loop of `_parse_insights_response` (lines 129-142):
walk the lines; a line whose stripped form starts with "Route Option" or
"Option" flushes the current chunk; other non-empty lines accumulate
stripped; a final flush closes the last chunk. -/
def segLoop : List Str → List Str → List Str → List Str
  | [], insights, current =>
    if current.isEmpty then insights
    else insights ++ [trim (List.intercalate (strL "\n") current)]
  | line :: rest, insights, current =>
    let t := trim line
    if isPrefixOfB (strL "Route Option") t || isPrefixOfB (strL "Option") t then
      if current.isEmpty then segLoop rest insights []
      else segLoop rest (insights ++ [trim (List.intercalate (strL "\n") current)]) []
    else if t.isEmpty then segLoop rest insights current
    else segLoop rest insights (current ++ [t])

/-- The insight segments found by splitting the response on the
"Route Option"/"Option" markers. -/
def segmentsOf (response : Str) : List Str :=
  segLoop (splitLines response) [] []

/-- `InsightAgent._parse_insights_response` (lines 120-149): split on the
markers; if the number of segments differs from `num_itineraries`, fall back
to `[response.strip()] * num_itineraries`. -/
def parseInsightsResponse (response : Str) (numItineraries : Nat) : List Str :=
  let insights := segmentsOf response
  if insights.length ≠ numItineraries then
    List.replicate numItineraries (trim response)
  else insights

/-! ## Lemmas about the string primitives -/

/-- `dropWhile` never lengthens a list. -/
lemma length_dropWhile_le (p : Char → Bool) (l : Str) :
    (l.dropWhile p).length ≤ l.length := by
  induction l with
  | nil => simp
  | cons c cs ih =>
    by_cases h : p c
    · simp [List.dropWhile, h]; omega
    · simp [List.dropWhile, h]

/-- A list that `dropWhile` maps to something of the same length is fixed. -/
lemma dropWhile_eq_self_of_length (p : Char → Bool) (l : Str)
    (h : (l.dropWhile p).length = l.length) : l.dropWhile p = l := by
  cases l with
  | nil => rfl
  | cons c cs =>
    by_cases hp : p c
    · exfalso
      rw [List.dropWhile_cons_of_pos hp] at h
      have := length_dropWhile_le p cs
      simp at h
      omega
    · exact List.dropWhile_cons_of_neg hp

/-- A fully stripped string has a fixed left strip. -/
lemma trimLeft_of_trim_eq (s : Str) (h : trim s = s) : trimLeft s = s := by
  have h1 : (trimLeft s).length ≤ s.length := length_dropWhile_le _ _
  have h2 : (trimRight (trimLeft s)).length ≤ (trimLeft s).length := by
    unfold trimRight
    rw [List.length_reverse]
    calc ((trimLeft s).reverse.dropWhile isSpaceChar).length
        ≤ (trimLeft s).reverse.length := length_dropWhile_le _ _
      _ = (trimLeft s).length := List.length_reverse _
  have h3 : (trim s).length = s.length := congrArg List.length h
  unfold trim at h3
  have hlen : (trimLeft s).length = s.length := by omega
  unfold trimLeft at hlen ⊢
  exact dropWhile_eq_self_of_length _ _ hlen

/-- A fully stripped string has a fixed right strip. -/
lemma trimRight_of_trim_eq (s : Str) (h : trim s = s) : trimRight s = s := by
  have hl := trimLeft_of_trim_eq s h
  unfold trim at h
  rw [hl] at h
  exact h

/-- A fully stripped string's reversal starts with no whitespace. -/
lemma dropWhile_reverse_of_trim_eq (s : Str) (h : trim s = s) :
    s.reverse.dropWhile isSpaceChar = s.reverse := by
  have hr := trimRight_of_trim_eq s h
  unfold trimRight at hr
  have := congrArg List.reverse hr
  simpa using this

/-- The head of a non-empty fully-left-stripped string is not whitespace. -/
lemma head_not_space (c : Char) (cs : Str)
    (h : (c :: cs).dropWhile isSpaceChar = c :: cs) : isSpaceChar c = false := by
  by_cases hp : isSpaceChar c
  · exfalso
    rw [List.dropWhile_cons_of_pos hp] at h
    have h1 := length_dropWhile_le isSpaceChar cs
    have h2 := congrArg List.length h
    simp at h2
    omega
  · simpa using hp

/-- Leading whitespace is invisible to `dropWhile isSpaceChar`. -/
lemma dropWhile_allSpace_append (ws l : Str) (h : allSpace ws = true) :
    (ws ++ l).dropWhile isSpaceChar = l.dropWhile isSpaceChar := by
  induction ws with
  | nil => simp
  | cons c cs ih =>
    simp only [allSpace, List.all_cons, Bool.and_eq_true] at h
    rw [List.cons_append, List.dropWhile_cons_of_pos h.1]
    exact ih h.2

/-- `lstrip` of whitespace, then a non-whitespace character, then anything. -/
lemma trimLeft_pad (ws : Str) (c : Char) (l : Str)
    (hws : allSpace ws = true) (hc : isSpaceChar c = false) :
    trimLeft (ws ++ c :: l) = c :: l := by
  unfold trimLeft
  rw [dropWhile_allSpace_append ws _ hws]
  exact List.dropWhile_cons_of_neg (by simp [hc])

/-- `rstrip` of anything ending in a non-whitespace character, then
whitespace. -/
lemma trimRight_pad (l : Str) (d : Char) (ws : Str)
    (hws : allSpace ws = true) (hd : isSpaceChar d = false) :
    trimRight ((l ++ [d]) ++ ws) = l ++ [d] := by
  unfold trimRight
  rw [List.reverse_append, List.reverse_append]
  simp only [List.reverse_cons, List.reverse_nil, List.nil_append, List.singleton_append]
  rw [dropWhile_allSpace_append ws.reverse _ (by simpa [allSpace, List.all_reverse] using hws)]
  rw [List.dropWhile_cons_of_neg (by simp [hd])]
  simp

/-- `strip` of a word padded with whitespace on both sides. -/
lemma trim_sandwich (ws1 ws2 mid : Str) (c d : Char)
    (h1 : allSpace ws1 = true) (h2 : allSpace ws2 = true)
    (hc : isSpaceChar c = false) (hd : isSpaceChar d = false) :
    trim (ws1 ++ (c :: (mid ++ [d])) ++ ws2) = c :: (mid ++ [d]) := by
  unfold trim
  have e1 : ws1 ++ (c :: (mid ++ [d])) ++ ws2 = ws1 ++ c :: ((mid ++ [d]) ++ ws2) := by
    simp [List.append_assoc]
  rw [e1, trimLeft_pad _ _ _ h1 hc]
  have e2 : c :: ((mid ++ [d]) ++ ws2) = ((c :: mid) ++ [d]) ++ ws2 := by
    simp [List.append_assoc]
  rw [e2, trimRight_pad _ _ _ h2 hd]
  simp

/-- A prefix check always succeeds against the prefix itself plus a tail. -/
lemma isPrefixOfB_self_append (p r : Str) : isPrefixOfB p (p ++ r) = true := by
  induction p with
  | nil => rfl
  | cons c cs ih => simp [isPrefixOfB, ih]

/-- A longer prefix check succeeding implies the shorter one succeeding. -/
lemma isPrefixOfB_of_append (p q s : Str) (h : isPrefixOfB (p ++ q) s = true) :
    isPrefixOfB p s = true := by
  induction p generalizing s with
  | nil => rfl
  | cons c cs ih =>
    cases s with
    | nil => simp [isPrefixOfB] at h
    | cons b bs =>
      simp only [List.cons_append, isPrefixOfB, Bool.and_eq_true] at h ⊢
      exact ⟨h.1, ih bs h.2⟩

/-! ## Fenced provider responses -/

/-- The backtick character. -/
def tickC : Char := Char.ofNat 96

/-- A response fenced as ```` ```json ... ``` ````. -/
def fenceJson (doc : Str) : Str := strL "```json\n" ++ doc ++ strL "\n```"

/-- A response fenced as ```` ``` ... ``` ````. -/
def fencePlain (doc : Str) : Str := strL "```\n" ++ doc ++ strL "\n```"

/-- The fenced document as a non-whitespace-delimited word. -/
lemma fenceJson_decomp (doc : Str) :
    fenceJson doc = tickC :: ((strL "``json\n" ++ (doc ++ strL "\n``")) ++ [tickC]) := by
  have e1 : strL "```json\n" = tickC :: strL "``json\n" := by decide
  have e2 : strL "\n```" = strL "\n``" ++ [tickC] := by decide
  unfold fenceJson
  rw [e1, e2]
  simp [List.append_assoc]

/-- The plainly fenced document as a non-whitespace-delimited word. -/
lemma fencePlain_decomp (doc : Str) :
    fencePlain doc = tickC :: ((strL "``\n" ++ (doc ++ strL "\n``")) ++ [tickC]) := by
  have e1 : strL "```\n" = tickC :: strL "``\n" := by decide
  have e2 : strL "\n```" = strL "\n``" ++ [tickC] := by decide
  unfold fencePlain
  rw [e1, e2]
  simp [List.append_assoc]

/-- Splitting the json fence after its seven-character opening tag. -/
lemma fenceJson_split (doc : Str) :
    fenceJson doc = strL "```json" ++ ('\n' :: (doc ++ strL "\n```")) := by
  have e1 : strL "```json\n" = strL "```json" ++ ['\n'] := by decide
  unfold fenceJson
  rw [e1]
  simp [List.append_assoc]

/-- Splitting the plain fence after its three-character opening tag. -/
lemma fencePlain_split (doc : Str) :
    fencePlain doc = strL "```" ++ ('\n' :: (doc ++ strL "\n```")) := by
  have e1 : strL "```\n" = strL "```" ++ ['\n'] := by decide
  unfold fencePlain
  rw [e1]
  simp [List.append_assoc]

/-- Whitespace-padded fenced input strips to the bare fenced document. -/
lemma trim_fenceJson_padded (doc ws1 ws2 : Str)
    (h1 : allSpace ws1 = true) (h2 : allSpace ws2 = true) :
    trim (ws1 ++ fenceJson doc ++ ws2) = fenceJson doc := by
  rw [fenceJson_decomp]
  exact trim_sandwich ws1 ws2 _ tickC tickC h1 h2 (by decide) (by decide)

/-- Whitespace-padded plainly fenced input strips to the bare fenced
document. -/
lemma trim_fencePlain_padded (doc ws1 ws2 : Str)
    (h1 : allSpace ws1 = true) (h2 : allSpace ws2 = true) :
    trim (ws1 ++ fencePlain doc ++ ws2) = fencePlain doc := by
  rw [fencePlain_decomp]
  exact trim_sandwich ws1 ws2 _ tickC tickC h1 h2 (by decide) (by decide)

/-- The reversal of the residue after the opening fence tag. -/
lemma residue_reverse (doc : Str) :
    ('\n' :: (doc ++ strL "\n```")).reverse
      = tickC :: tickC :: tickC :: '\n' :: (doc.reverse ++ ['\n']) := by
  have e1 : (strL "\n```").reverse = tickC :: tickC :: tickC :: ['\n'] := by decide
  simp [List.reverse_cons, List.reverse_append, e1, List.append_assoc]

/-- The residue after the opening fence tag ends in a closing fence. -/
lemma residue_endsWith (doc : Str) :
    endsWithB (strL "```") ('\n' :: (doc ++ strL "\n```")) = true := by
  unfold endsWithB
  rw [residue_reverse]
  have e1 : (strL "```").reverse = [tickC, tickC, tickC] := by decide
  rw [e1]
  simp [isPrefixOfB]

/-- Removing the closing fence from the residue. -/
lemma dropTicksEnd_residue (doc : Str) :
    extractJsonFromResponse.dropTicksEnd ('\n' :: (doc ++ strL "\n```"))
      = ('\n' :: doc) ++ ['\n'] := by
  unfold extractJsonFromResponse.dropTicksEnd
  rw [residue_endsWith]
  simp only [if_true]
  rw [residue_reverse]
  simp [List.reverse_append, List.reverse_cons]

/-- Stripping a fully stripped document padded with single newlines. -/
lemma trim_newline_pad (doc : Str) (hdoc : trim doc = doc) :
    trim (('\n' :: doc) ++ ['\n']) = doc := by
  unfold trim trimLeft
  rw [List.cons_append, List.dropWhile_cons_of_pos (by decide : isSpaceChar '\n' = true)]
  cases hdd : doc with
  | nil =>
    simp [trimRight, List.dropWhile, isSpaceChar]
  | cons c cs =>
    have hfix : List.dropWhile isSpaceChar (c :: cs) = c :: cs := by
      have h0 := trimLeft_of_trim_eq doc hdoc
      rw [hdd] at h0
      exact h0
    have hc : isSpaceChar c = false := head_not_space c cs hfix
    have hcn : ¬ isSpaceChar c = true := by simp [hc]
    rw [List.cons_append, List.dropWhile_cons_of_neg hcn]
    unfold trimRight
    have e1 : (c :: (cs ++ ['\n'])).reverse = '\n' :: (cs.reverse ++ [c]) := by
      simp [List.reverse_cons, List.reverse_append]
    rw [e1, List.dropWhile_cons_of_pos (by decide : isSpaceChar '\n' = true)]
    have h2 : List.dropWhile isSpaceChar (cs.reverse ++ [c]) = cs.reverse ++ [c] := by
      have h3 := dropWhile_reverse_of_trim_eq doc hdoc
      rw [hdd] at h3
      simpa [List.reverse_cons] using h3
    rw [h2]
    simp

/-- `_extract_json_from_response` recovers the document from anything that
strips to the json-tagged fenced form. -/
lemma extract_of_trim_fenceJson (s doc : Str) (hdoc : trim doc = doc)
    (hs : trim s = fenceJson doc) : extractJsonFromResponse s = doc := by
  unfold extractJsonFromResponse
  rw [hs, fenceJson_split]
  rw [isPrefixOfB_self_append]
  simp only [if_true]
  have h7 : (7 : Nat) = (strL "```json").length := by decide
  rw [h7, List.drop_left, dropTicksEnd_residue]
  exact trim_newline_pad doc hdoc

/-- The json-tagged prefix check fails on the plainly fenced form. -/
lemma json_prefix_fencePlain (doc : Str) :
    isPrefixOfB (strL "```json") (fencePlain doc) = false := by
  have e1 : fencePlain doc = tickC :: tickC :: tickC :: '\n' :: (doc ++ strL "\n```") := by
    rw [fencePlain_split]
    have e2 : strL "```" = [tickC, tickC, tickC] := by decide
    rw [e2]
    simp
  have e3 : strL "```json" = tickC :: tickC :: tickC :: 'j' :: strL "son" := by decide
  have hjn : (('j' : Char) == '\n') = false := by decide
  rw [e1, e3]
  simp [isPrefixOfB, hjn]

/-- `_extract_json_from_response` recovers the document from anything that
strips to the plainly fenced form. -/
lemma extract_of_trim_fencePlain (s doc : Str) (hdoc : trim doc = doc)
    (hs : trim s = fencePlain doc) : extractJsonFromResponse s = doc := by
  unfold extractJsonFromResponse
  rw [hs, json_prefix_fencePlain]
  simp only [Bool.false_eq_true, if_false]
  rw [fencePlain_split]
  rw [isPrefixOfB_self_append]
  simp only [if_true]
  have h3 : (3 : Nat) = (strL "```").length := by decide
  rw [h3, List.drop_left, dropTicksEnd_residue]
  exact trim_newline_pad doc hdoc

/-- `_extract_json_from_response` leaves an unfenced, fully stripped
document unchanged. -/
lemma extract_unfenced (doc : Str) (hdoc : trim doc = doc)
    (hfence : isPrefixOfB (strL "```") doc = false) :
    extractJsonFromResponse doc = doc := by
  unfold extractJsonFromResponse
  rw [hdoc]
  have h7 : isPrefixOfB (strL "```json") doc = false := by
    cases hcase : isPrefixOfB (strL "```json") doc
    · rfl
    · exfalso
      have e1 : strL "```json" = strL "```" ++ strL "json" := by decide
      rw [e1] at hcase
      rw [isPrefixOfB_of_append _ _ _ hcase] at hfence
      simp at hfence
  rw [h7, hfence]
  simp

/-! ## Concrete sample data (mirroring `tests/agents/insight/test_agent.py`) -/

/-- The Helsinki Central sample place of the test fixtures. -/
def samplePlaceA : Place := ⟨⟨60.1699, 24.9384⟩, some (strL "Helsinki Central")⟩

/-- The Espoo Central sample place of the test fixtures. -/
def samplePlaceB : Place := ⟨⟨60.2055, 24.6559⟩, some (strL "Espoo Central")⟩

/-- The bus-550 sample leg of the test fixtures. -/
def sampleLeg : Leg :=
  { mode := .BUS, start := 0, «end» := 1800, duration := 1800, distance := 15000,
    from_place := samplePlaceA, to_place := samplePlaceB,
    route := some ⟨strL "550", strL "Helsinki - Espoo", some (strL "Bus route")⟩ }

/-- The single-leg sample itinerary of the test fixtures. -/
def sampleItinerary : Itinerary :=
  { start := 0, «end» := 1800, duration := 1800, walk_distance := 200,
    walk_time := 120, legs := [sampleLeg] }

/-- A one-itinerary request with a preference and no weather. -/
def sampleRequest : InsightRequest :=
  { itineraries := [sampleItinerary],
    user_preferences := some [⟨strL "I prefer faster routes"⟩],
    weather_conditions := none }

/-- A two-itinerary request with no weather. -/
def sampleRequest2 : InsightRequest :=
  { itineraries := [sampleItinerary, sampleItinerary],
    user_preferences := none, weather_conditions := none }

/-- A three-itinerary request with no weather. -/
def sampleRequest3 : InsightRequest :=
  { itineraries := [sampleItinerary, sampleItinerary, sampleItinerary],
    user_preferences := none, weather_conditions := none }

/-- A serialized `InsightResponse` with exactly one itinerary insight. -/
def insightJsonOne : Str :=
  strL "\x7b\"itinerary_insights\": [\x7b\"ai_insight\": \"x\", \"leg_insights\": []\x7d]\x7d"

/-- Whether the assistant content is empty or strips to empty. -/
def stripsToEmpty : Option Str → Bool
  | none => true
  | some s => (trim s).isEmpty

/-! ## Claim theorems -/

/-- C3: constructing an `InsightRequest` with `itineraries = []` always fails
with a ValidationError-kind error (the `validate_itineraries` `ValueError`
wrapped in `pydantic.ValidationError`), and `InsightService.generate_insights`
on an empty itinerary list fails with the service's `ValueError` before any
generation-provider call is made — the provider call list stays empty. -/
theorem c3_empty_itineraries_rejected (svc : Option WeatherFetch)
    (sysT userT : InsightRequest → Str)
    (provider : List ChatMessage → Except PyExc Str)
    (prefs : Option (List Preference)) (w : Option WeatherCondition) :
    InsightRequest.mk? [] prefs w
        = Except.error (.pydanticValidation (strL "At least one itinerary is required"))
    ∧ generateInsights svc sysT userT provider [] prefs
        = ([], Except.error (.valueError (strL "At least one itinerary is required"))) :=
  ⟨rfl, rfl⟩

/-- C7: a 200 upstream response whose JSON body has an empty `"weather"`
array makes `get_current_weather` raise `IndexError` from
`data["weather"][0]` — an exception that is not converted to the
WeatherUnavailable kind and escapes, contradicting the claim that malformed
payloads always produce a WeatherUnavailable-kind error and that no other
exception kind escapes. -/
theorem c7_weather_empty_array_escapes :
    getCurrentWeather (strL "key")
        (.response 200
          (.obj [(strL "main",
                    .obj [(strL "temp", .num (strL "3.5")),
                          (strL "humidity", .num (strL "80"))]),
                 (strL "weather", .arr []),
                 (strL "wind", .obj [])]))
        0
      = Except.error PyExc.indexError := by rfl

/-- C8: a POST body with an empty `itineraries` list makes the handler's
`InsightRequest` construction raise `pydantic.ValidationError`, a
`ValueError` subclass, which the handler's `except ValueError` clause maps
to HTTP 500 "Configuration error" — not the 400 the claim (and the repo's
endpoint tests) require. -/
theorem c8_empty_itineraries_yield_500 (prefs : Option (List Preference))
    (agent : InsightRequest → Except PyExc InsightResponse) :
    insightEndpoint [] prefs agent = (500, strL "Configuration error") := rfl

/-- C9: the enrichment step of `InsightAgent.execute` does not mutate the
caller's request: the source constructs the enriched request as a fresh
`InsightRequest` and assigns no attribute of `input_data`, so the caller's
request value is returned unchanged, and the enriched copy carries exactly
the input's itineraries and preferences with the fetched weather attached
only to the copy. -/
theorem c9_request_not_mutated (svc : Option WeatherFetch)
    (sysT userT : InsightRequest → Str)
    (provider : List ChatMessage → Except PyExc Str)
    (req : InsightRequest) (w : Option WeatherCondition) :
    (insightExecuteSt svc sysT userT provider req).2 = req
    ∧ (enhancedRequestOk w req).itineraries = req.itineraries
    ∧ (enhancedRequestOk w req).user_preferences = req.user_preferences
    ∧ (enhancedRequestOk w req).weather_conditions = w :=
  ⟨rfl, rfl, rfl, rfl⟩

/-- C10: the free-text `_parse_insights_response` always returns exactly
`num_itineraries` strings, and whenever splitting on the
"Route Option"/"Option" markers yields a different number of segments, every
returned element is the whole stripped response — the count mismatch is
masked rather than reported. -/
theorem c10_parse_masks_count_mismatch (response : Str) (num : Nat)
    (h : 1 ≤ num) :
    (parseInsightsResponse response num).length = num
    ∧ ((segmentsOf response).length ≠ num →
        parseInsightsResponse response num = List.replicate num (trim response)) := by
  unfold parseInsightsResponse
  by_cases hc : (segmentsOf response).length = num
  · simp [hc]
  · simp [hc]

/-- Witness for C10 at a marker-free two-itinerary instance: the single
segment mismatches `num_itineraries = 2`, so both returned insights are the
whole stripped response. -/
theorem c10_witness :
    1 ≤ 2
    ∧ ((parseInsightsResponse (strL "hello there") 2).length = 2
      ∧ ((segmentsOf (strL "hello there")).length ≠ 2 →
          parseInsightsResponse (strL "hello there") 2
            = List.replicate 2 (trim (strL "hello there")))) :=
  ⟨by decide, c10_parse_masks_count_mismatch (strL "hello there") 2 (by decide)⟩

/-- C2: for a fully stripped JSON document, the response-extraction step
recovers the document from the ```` ```json ```` fenced form and from the
plain ```` ``` ```` fenced form, each with arbitrary surrounding whitespace,
and validating the extraction yields the same output model as for the
unfenced, unpadded equivalent text. -/
theorem c2_fenced_json_extraction (doc ws1 ws2 : Str)
    (hdoc : trim doc = doc) (hfence : isPrefixOfB (strL "```") doc = false)
    (h1 : allSpace ws1 = true) (h2 : allSpace ws2 = true) :
    modelValidateInsight (extractJsonFromResponse (ws1 ++ fenceJson doc ++ ws2))
        = modelValidateInsight (extractJsonFromResponse doc)
    ∧ modelValidateInsight (extractJsonFromResponse (ws1 ++ fencePlain doc ++ ws2))
        = modelValidateInsight (extractJsonFromResponse doc)
    ∧ extractJsonFromResponse (ws1 ++ fenceJson doc ++ ws2) = doc
    ∧ extractJsonFromResponse (ws1 ++ fencePlain doc ++ ws2) = doc := by
  have hj := extract_of_trim_fenceJson _ doc hdoc (trim_fenceJson_padded doc ws1 ws2 h1 h2)
  have hp := extract_of_trim_fencePlain _ doc hdoc (trim_fencePlain_padded doc ws1 ws2 h1 h2)
  have hu := extract_unfenced doc hdoc hfence
  exact ⟨by rw [hj, hu], by rw [hp, hu], hj, hp⟩

/-- Witness for C2 at the concrete one-insight document of spec §8 P4,
padded with whitespace on both sides. -/
theorem c2_witness :
    (trim insightJsonOne = insightJsonOne
      ∧ isPrefixOfB (strL "```") insightJsonOne = false
      ∧ allSpace (strL "  ") = true ∧ allSpace (strL "\n ") = true)
    ∧ (modelValidateInsight
          (extractJsonFromResponse (strL "  " ++ fenceJson insightJsonOne ++ strL "\n "))
            = modelValidateInsight (extractJsonFromResponse insightJsonOne)
      ∧ modelValidateInsight
          (extractJsonFromResponse (strL "  " ++ fencePlain insightJsonOne ++ strL "\n "))
            = modelValidateInsight (extractJsonFromResponse insightJsonOne)
      ∧ extractJsonFromResponse (strL "  " ++ fenceJson insightJsonOne ++ strL "\n ")
            = insightJsonOne
      ∧ extractJsonFromResponse (strL "  " ++ fencePlain insightJsonOne ++ strL "\n ")
            = insightJsonOne) :=
  ⟨⟨by decide, by decide, by decide, by decide⟩,
   c2_fenced_json_extraction insightJsonOne (strL "  ") (strL "\n ")
     (by decide) (by decide) (by decide) (by decide)⟩

/-- C5: with a valid model configuration, `BoundBaseAgent.execute` on a
request of the declared input model issues exactly one provider call, whose
message list has exactly two entries — the system message with the rendered
system prompt, then the user message with the rendered user prompt — and
whose response format is the JSON-schema constraint carrying the declared
output model's name and derived schema. -/
theorem c5_single_schema_call {In Out : Type} (cfg : List Str)
    (sysT userT : In → Str) (meta : OutputMeta Out)
    (provider : GenCall → Option Str) (a : In)
    (hcfg : validConfig cfg = true) :
    (boundExecute cfg sysT userT meta provider (Except.ok a)).1
      = [{ messages := [⟨strL "system", sysT a⟩, ⟨strL "user", userT a⟩],
           response_format :=
             { type := strL "json_schema", name := meta.name, schema := meta.schema } }]
    ∧ (boundExecute cfg sysT userT meta provider (Except.ok a)).1.length = 1 := by
  constructor
  · simp [boundExecute, hcfg, mkGenCall]
  · simp [boundExecute, hcfg]

/-- Witness for C5 at the insight binding: the schema constraint is named
after the output type `InsightResponse`. -/
theorem c5_witness :
    validConfig [strL "model"] = true
    ∧ insightResponseMeta.name = strL "InsightResponse"
    ∧ (boundExecute [strL "model"] (fun _ => strL "SYS") (fun _ => strL "USER")
          insightResponseMeta (fun _ => some insightJsonOne)
          (Except.ok sampleRequest)).1
      = [{ messages := [⟨strL "system", strL "SYS"⟩, ⟨strL "user", strL "USER"⟩],
           response_format :=
             { type := strL "json_schema", name := insightResponseMeta.name,
               schema := insightResponseMeta.schema } }] :=
  ⟨by decide, rfl,
   (c5_single_schema_call [strL "model"] (fun _ => strL "SYS") (fun _ => strL "USER")
      insightResponseMeta (fun _ => some insightJsonOne) sampleRequest (by decide)).1⟩

/-- C6: with a valid model configuration, whenever the provider's assistant
content is absent, empty, or strips to empty, `BoundBaseAgent.execute`
raises an error of the ProcessingError kind (the empty-content `ValueError`
or the `pydantic.ValidationError` from parsing) and never returns an output
model. -/
theorem c6_empty_content_processing_error {In Out : Type} (cfg : List Str)
    (sysT userT : In → Str) (meta : OutputMeta Out)
    (provider : GenCall → Option Str) (a : In)
    (hcfg : validConfig cfg = true)
    (hempty : stripsToEmpty (provider (mkGenCall sysT userT meta a)) = true) :
    ∃ e, (boundExecute cfg sysT userT meta provider (Except.ok a)).2
            = Except.error e
      ∧ e.isProcessingKind = true := by
  have hres : (boundExecute cfg sysT userT meta provider (Except.ok a)).2
      = handleContent meta.validate (provider (mkGenCall sysT userT meta a)) := by
    simp [boundExecute, hcfg]
  cases hp : provider (mkGenCall sysT userT meta a) with
  | none =>
    refine ⟨.emptyContent, ?_, rfl⟩
    rw [hres, hp]
    rfl
  | some s =>
    rw [hp] at hempty
    have htrim : trim s = [] := by
      simpa [stripsToEmpty, List.isEmpty_iff] using hempty
    by_cases hse : s.isEmpty
    · refine ⟨.emptyContent, ?_, rfl⟩
      rw [hres, hp]
      simp [handleContent, hse]
    · refine ⟨.pydanticValidation (strL "expecting value"), ?_, rfl⟩
      rw [hres, hp]
      have hparse : modelValidateJson meta.validate (trim s)
          = Except.error (strL "expecting value") := by
        rw [htrim]
        rfl
      simp [handleContent, hse, hparse]

/-- Witness for C6 at whitespace-only assistant content. -/
theorem c6_witness :
    validConfig [strL "model"] = true
    ∧ stripsToEmpty ((fun _ => some (strL "  \n"))
        (mkGenCall (fun _ => strL "S") (fun _ => strL "U") insightResponseMeta
          sampleRequest)) = true
    ∧ ∃ e, (boundExecute [strL "model"] (fun _ => strL "S") (fun _ => strL "U")
              insightResponseMeta (fun _ => some (strL "  \n"))
              (Except.ok sampleRequest)).2
          = Except.error e
        ∧ e.isProcessingKind = true :=
  ⟨by decide, by decide,
   c6_empty_content_processing_error [strL "model"] (fun _ => strL "S")
     (fun _ => strL "U") insightResponseMeta (fun _ => some (strL "  \n"))
     sampleRequest (by decide) (by decide)⟩

/-- C1 counterexample: a two-itinerary request whose provider response
parses to a single itinerary insight makes `BoundBaseAgent.execute` return
that one-element `InsightResponse` — no ProcessingError-kind error is
raised for the count mismatch. -/
theorem c1_counterexample :
    sampleRequest2.itineraries.length = 2
    ∧ (boundExecute [strL "model"] (fun _ => strL "SYS") (fun _ => strL "USER")
          insightResponseMeta (fun _ => some insightJsonOne)
          (Except.ok sampleRequest2)).2
        = Except.ok ⟨[⟨strL "x", []⟩]⟩ :=
  ⟨rfl, by rfl⟩

/-- C1 amended: `BoundBaseAgent.execute` performs no insight-count check —
whenever the stripped assistant content parses and validates as an
`InsightResponse`, execute returns it unchanged whatever the number of
itineraries in the request, so a count mismatch is returned rather than
surfaced as a ProcessingError (and the free-text variant masks it by
repeating the whole response). -/
theorem c1_no_count_check (cfg : List Str) (sysT userT : InsightRequest → Str)
    (provider : GenCall → Option Str) (req : InsightRequest)
    (content : Str) (out : InsightResponse)
    (hcfg : validConfig cfg = true)
    (hprov : provider (mkGenCall sysT userT insightResponseMeta req) = some content)
    (hparse : modelValidateInsight (trim content) = Except.ok out) :
    (boundExecute cfg sysT userT insightResponseMeta provider (Except.ok req)).2
      = Except.ok out := by
  have hres : (boundExecute cfg sysT userT insightResponseMeta provider (Except.ok req)).2
      = handleContent insightResponseMeta.validate
          (provider (mkGenCall sysT userT insightResponseMeta req)) := by
    simp [boundExecute, hcfg]
  rw [hres, hprov]
  by_cases hse : content.isEmpty
  · exfalso
    have hc : content = [] := by simpa [List.isEmpty_iff] using hse
    rw [hc] at hparse
    have : modelValidateInsight (trim ([] : Str))
        = Except.error (strL "expecting value") := by rfl
    rw [this] at hparse
    cases hparse
  · have hv : modelValidateJson insightResponseMeta.validate (trim content)
        = Except.ok out := hparse
    simp [handleContent, hse, hv]

/-- Witness for the amended C1: a three-itinerary request with a
one-insight response is returned as-is. -/
theorem c1_no_count_check_witness :
    validConfig [strL "model"] = true
    ∧ (fun (_ : GenCall) => some insightJsonOne)
        (mkGenCall (fun _ => strL "SYS") (fun _ => strL "USER")
          insightResponseMeta sampleRequest3) = some insightJsonOne
    ∧ modelValidateInsight (trim insightJsonOne) = Except.ok ⟨[⟨strL "x", []⟩]⟩
    ∧ sampleRequest3.itineraries.length = 3
    ∧ (boundExecute [strL "model"] (fun _ => strL "SYS") (fun _ => strL "USER")
          insightResponseMeta (fun _ => some insightJsonOne)
          (Except.ok sampleRequest3)).2
        = Except.ok ⟨[⟨strL "x", []⟩]⟩ :=
  ⟨by decide, rfl, by rfl, rfl,
   c1_no_count_check [strL "model"] (fun _ => strL "SYS") (fun _ => strL "USER")
     (fun _ => some insightJsonOne) sampleRequest3 insightJsonOne ⟨[⟨strL "x", []⟩]⟩
     (by decide) rfl (by rfl)⟩

/-- C4: when the request carries no weather and the weather collaborator
fails with any of its failure kinds (`ValueError` or `WeatherServiceError`),
`InsightAgent.execute` absorbs the failure and proceeds exactly as the base
execute on the request with weather absent — identical to running with no
weather service at all. -/
theorem c4_weather_failure_tolerated (sysT userT : InsightRequest → Str)
    (provider : List ChatMessage → Except PyExc Str) (fetch : WeatherFetch)
    (req : InsightRequest)
    (hw : req.weather_conditions = none)
    (hfail : ∀ c, ∃ e, fetch c = Except.error e
        ∧ (e.isValueError || e.isWeatherServiceError) = true) :
    insightExecute (some fetch) sysT userT provider req
        = asyncExecute sysT userT validateInsightResponse provider (Except.ok req)
    ∧ insightExecute (some fetch) sysT userT provider req
        = insightExecute none sysT userT provider req := by
  obtain ⟨itins, prefs, wc⟩ := req
  simp only [InsightRequest.weather_conditions] at hw
  subst hw
  cases itins with
  | nil => exact ⟨rfl, rfl⟩
  | cons it rest =>
    have hg : getWeatherForItinerary (some fetch) it = Except.ok none := by
      cases hlegs : it.legs with
      | nil =>
        obtain ⟨e, he, hk⟩ := hfail helsinkiCoordinates
        simp [getWeatherForItinerary, hlegs, he, hk]
      | cons leg more =>
        obtain ⟨e, he, hk⟩ := hfail leg.from_place.coordinates
        simp [getWeatherForItinerary, hlegs, he, hk]
    have gnone : getWeatherForItinerary none it = Except.ok none := rfl
    constructor
    · simp [insightExecute, hg, enhancedRequestOk]
    · simp [insightExecute, hg, gnone, enhancedRequestOk]

/-- Witness for C4: a weather service that always raises
`WeatherServiceUnavailableError` leaves execution identical to the base
execute on the weather-less request. -/
theorem c4_witness :
    sampleRequest.weather_conditions = none
    ∧ (∀ c, ∃ e, (fun (_ : Coordinates) =>
          (Except.error (.weatherUnavailable (strL "boom")) :
            Except PyExc WeatherCondition)) c = Except.error e
        ∧ (e.isValueError || e.isWeatherServiceError) = true)
    ∧ insightExecute
          (some (fun _ => Except.error (.weatherUnavailable (strL "boom"))))
          (fun _ => strL "S") (fun _ => strL "U")
          (fun _ => Except.error (.llmError (strL "down"))) sampleRequest
        = asyncExecute (fun _ => strL "S") (fun _ => strL "U")
            validateInsightResponse
            (fun _ => Except.error (.llmError (strL "down")))
            (Except.ok sampleRequest) :=
  ⟨rfl,
   fun _ => ⟨.weatherUnavailable (strL "boom"), rfl, rfl⟩,
   (c4_weather_failure_tolerated (fun _ => strL "S") (fun _ => strL "U")
      (fun _ => Except.error (.llmError (strL "down")))
      (fun _ => Except.error (.weatherUnavailable (strL "boom")))
      sampleRequest rfl
      (fun _ => ⟨.weatherUnavailable (strL "boom"), rfl, rfl⟩)).1⟩

end Commute
